import Mathlib

/-!
Verification of the marketing-funnel analysis pipeline.

This file gives a shallow embedding of the four pipeline stages of the
repository (02_data_cleaning.py, 03_data_merging.py, 04_feature_engineering.py,
05_funnel_analysis.py) and proves or refutes the specified properties.

Modelling conventions:
* a pandas DataFrame is a List of row structures;
* a nullable column is an Option field (pandas NaN / NaT = none);
* dates are day numbers (Int); pd.to_datetime with coercion of unparseable
  text to NaT is absorbed into the Option representation, so a date column
  holds parsed-or-missing values throughout;
* floats are modelled by exact rationals; Python round(x, 2) is modelled by
  round-half-to-even at two decimals (round2 below);
* pandas drop_duplicates (keep the first occurrence of each duplicated row)
  is dropDuplicates below; pandas groupby iterates the distinct keys and
  aggregates each group.
-/

namespace MarketingFunnel

/-- Keep-first duplicate removal, as pandas DataFrame.drop_duplicates does:
the first occurrence of every row value is kept, later equal rows are dropped.
seen accumulates the row values already emitted. -/
def ddAux {α : Type} [DecidableEq α] (seen : List α) : List α → List α
  | [] => []
  | x :: xs => if x ∈ seen then ddAux seen xs else x :: ddAux (x :: seen) xs

/-- pandas drop_duplicates (keep='first'). -/
def dropDuplicates {α : Type} [DecidableEq α] (l : List α) : List α :=
  ddAux [] l

/-- Insert into a sorted list of rationals (helper for the series median). -/
def insertSorted (x : ℚ) : List ℚ → List ℚ
  | [] => [x]
  | y :: ys => if x ≤ y then x :: y :: ys else y :: insertSorted x ys

/-- Sort a list of rationals ascending. -/
def sortRats (l : List ℚ) : List ℚ := l.foldr insertSorted []

/-- pandas Series.median over the non-missing values: none on an empty series
(pandas returns NaN there, and fillna with NaN changes nothing), otherwise the
middle value, or the mean of the two middle values for an even count. -/
def median (xs : List ℚ) : Option ℚ :=
  if xs.length = 0 then none
  else
    let s := sortRats xs
    some ((s.getD ((xs.length - 1) / 2) 0 + s.getD (xs.length / 2) 0) / 2)

/-- Python round(x, 2): round half to even at two decimal places, on exact
rationals. -/
def round2 (x : ℚ) : ℚ :=
  let y : ℚ := x * 100
  let f : ℤ := ⌊y⌋
  let frac : ℚ := y - (f : ℚ)
  let r : ℤ :=
    if frac < 1/2 then f
    else if (1:ℚ)/2 < frac then f + 1
    else if f % 2 = 0 then f else f + 1
  (r : ℚ) / 100

/-- pandas .str.lower(): lower-case every character. -/
def toLowerStr (s : String) : String := String.mk (s.data.map Char.toLower)

/-- pandas .str.strip(): drop leading and trailing whitespace. -/
def trimStr (s : String) : String :=
  String.mk (((s.data.dropWhile Char.isWhitespace).reverse.dropWhile Char.isWhitespace).reverse)

/-- The categorical standardization applied by the Cleaner:
.str.lower().str.strip() (02_data_cleaning.py lines 107-119, 177-182). -/
def normCat (s : String) : String := trimStr (toLowerStr s)

/-- pandas fillna with a non-missing sentinel value. -/
def fillNa {α : Type} (sentinel : α) (v : Option α) : Option α :=
  some (v.getD sentinel)

/-- pandas fillna with a possibly-missing fill value (fillna with NaN keeps
the cell missing). -/
def fillNaOpt (m : Option ℚ) (v : Option ℚ) : Option ℚ :=
  match v with
  | some x => some x
  | none => m

/-! ## Cleaner (02_data_cleaning.py)

Row of olist_closed_deals_dataset.csv, restricted to the columns the cleaning
and merging scripts reference. -/

structure DealRow where
  mql_id : String
  business_segment : Option String
  lead_type : Option String
  lead_behaviour_profile : Option String
  business_type : Option String
  sdr_id : Option String
  sr_id : Option String
  has_company : Option ℚ
  has_gtin : Option ℚ
  average_stock : Option ℚ
  declared_product_catalog_size : Option ℚ
  declared_monthly_revenue : Option ℚ
  won_date : Option Int
deriving DecidableEq

/-- Row of olist_marketing_qualified_leads_dataset.csv. -/
structure LeadRow where
  mql_id : String
  first_contact_date : Option Int
  origin : Option String
  landing_page_id : Option String
deriving DecidableEq

/-- Fill missing categorical deal values with 'unknown'
(02_data_cleaning.py lines 74-80). -/
def fillCatRow (r : DealRow) : DealRow :=
  { r with
    business_segment := fillNa "unknown" r.business_segment
    lead_type := fillNa "unknown" r.lead_type
    lead_behaviour_profile := fillNa "unknown" r.lead_behaviour_profile
    business_type := fillNa "unknown" r.business_type
    sdr_id := fillNa "unknown" r.sdr_id
    sr_id := fillNa "unknown" r.sr_id }

def fillDealsCategorical (t : List DealRow) : List DealRow :=
  t.map fillCatRow

/-- Fill missing numerical deal values: boolean-coded columns with 0, the
others with the column median (02_data_cleaning.py lines 82-94). -/
def fillNumRow (mStock mCatalog mRevenue : Option ℚ) (r : DealRow) : DealRow :=
  { r with
    has_company := fillNa 0 r.has_company
    has_gtin := fillNa 0 r.has_gtin
    average_stock := fillNaOpt mStock r.average_stock
    declared_product_catalog_size := fillNaOpt mCatalog r.declared_product_catalog_size
    declared_monthly_revenue := fillNaOpt mRevenue r.declared_monthly_revenue }

def fillDealsNumerical (t : List DealRow) : List DealRow :=
  let mStock := median (t.filterMap (fun r => r.average_stock))
  let mCatalog := median (t.filterMap (fun r => r.declared_product_catalog_size))
  let mRevenue := median (t.filterMap (fun r => r.declared_monthly_revenue))
  t.map (fillNumRow mStock mCatalog mRevenue)

/-- Lower-case and strip designated categorical columns
(02_data_cleaning.py lines 107-119). -/
def stdRow (r : DealRow) : DealRow :=
  { r with
    business_segment := r.business_segment.map normCat
    lead_type := r.lead_type.map normCat
    lead_behaviour_profile := r.lead_behaviour_profile.map normCat }

def standardizeDeals (t : List DealRow) : List DealRow :=
  t.map stdRow

/-- Python int() truncation toward zero, applied by astype(int). -/
def ratTrunc (q : ℚ) : ℤ := Int.tdiv q.num (q.den : ℤ)

/-- astype(int) on the boolean-coded columns (02_data_cleaning.py lines 124-128). -/
def astRow (r : DealRow) : DealRow :=
  { r with
    has_company := r.has_company.map (fun q => ((ratTrunc q : ℤ) : ℚ))
    has_gtin := r.has_gtin.map (fun q => ((ratTrunc q : ℤ) : ℚ)) }

def astypeBoolDeals (t : List DealRow) : List DealRow :=
  t.map astRow

/-- clip(lower=0) on stock and revenue (02_data_cleaning.py lines 130-135). -/
def clipRow (r : DealRow) : DealRow :=
  { r with
    average_stock := r.average_stock.map (fun q => max q 0)
    declared_monthly_revenue := r.declared_monthly_revenue.map (fun q => max q 0) }

def clipDeals (t : List DealRow) : List DealRow :=
  t.map clipRow

/-- Cleaning of the closed-deals table, in the order the script executes:
drop_duplicates; fill categorical with 'unknown'; fill numerical with 0 or
the column median; convert won_date (absorbed into the Option date model);
standardize categorical text; astype(int) on booleans; clip to zero floor
(02_data_cleaning.py STEP 2). -/
def cleanDeals (t : List DealRow) : List DealRow :=
  clipDeals (astypeBoolDeals (standardizeDeals (fillDealsNumerical
    (fillDealsCategorical (dropDuplicates t)))))

/-- Fill missing lead categorical values with 'unknown'
(02_data_cleaning.py lines 160-165). -/
def fillLeadRow (r : LeadRow) : LeadRow :=
  { r with
    origin := fillNa "unknown" r.origin
    landing_page_id := fillNa "unknown" r.landing_page_id }

def fillLeadsCategorical (t : List LeadRow) : List LeadRow :=
  t.map fillLeadRow

/-- Lower-case and strip origin (02_data_cleaning.py lines 177-182). -/
def stdLeadRow (r : LeadRow) : LeadRow :=
  { r with origin := r.origin.map normCat }

def standardizeLeads (t : List LeadRow) : List LeadRow :=
  t.map stdLeadRow

/-- Cleaning of the marketing-qualified-leads table: drop_duplicates; fill
origin and landing_page_id with 'unknown'; convert first_contact_date
(absorbed into the Option date model; unparseable dates stay missing and are
only counted, never filled); standardize origin
(02_data_cleaning.py STEP 3). -/
def cleanLeads (t : List LeadRow) : List LeadRow :=
  standardizeLeads (fillLeadsCategorical (dropDuplicates t))

/-! ## Merger (03_data_merging.py) -/

/-- Row of the master dataset, restricted to the columns the claims are
about: the join-relevant input columns and the funnel-stage, conversion and
drop-off indicator columns derived in STEPS 4 and 5. -/
structure MasterRow where
  mql_id : String
  first_contact_date : Option Int
  sdr_id : Option String
  sr_id : Option String
  won_date : Option Int
  stage_1_lead_generated : Nat
  stage_2_first_contact : Nat
  stage_3_sales_qualified : Nat
  stage_4_consultation : Nat
  stage_5_deal_closed : Nat
  is_converted : Nat
  dropout_after_lead : Nat
  dropout_after_contact : Nat
  dropout_after_qualification : Nat
  dropout_after_consultation : Nat
deriving DecidableEq

/-- Left join of leads with deals on mql_id (03_data_merging.py line 82):
every lead is kept; a lead with no matching deal gets missing deal fields;
a lead with matching deals yields one output row per match. -/
def leftMerge (mql : List LeadRow) (deals : List DealRow) :
    List (LeadRow × Option DealRow) :=
  mql.flatMap (fun l =>
    let ds := deals.filter (fun d => decide (d.mql_id = l.mql_id))
    if ds.isEmpty then [(l, none)] else ds.map (fun d => (l, some d)))

/-- Funnel stage indicators, conversion flag and drop-off flags derived for
one merged row (03_data_merging.py lines 97-132). Stage 1 is constant 1;
stages 2-5 are presence checks on first_contact_date, sdr_id, sr_id and
won_date of the merged row (the deal fields are missing when the lead
matched no deal). -/
def makeMasterRow (l : LeadRow) (od : Option DealRow) : MasterRow :=
  let s2 : Nat := if l.first_contact_date.isSome then 1 else 0
  let s3 : Nat := if (od.bind (fun d => d.sdr_id)).isSome then 1 else 0
  let s4 : Nat := if (od.bind (fun d => d.sr_id)).isSome then 1 else 0
  let s5 : Nat := if (od.bind (fun d => d.won_date)).isSome then 1 else 0
  { mql_id := l.mql_id
    first_contact_date := l.first_contact_date
    sdr_id := od.bind (fun d => d.sdr_id)
    sr_id := od.bind (fun d => d.sr_id)
    won_date := od.bind (fun d => d.won_date)
    stage_1_lead_generated := 1
    stage_2_first_contact := s2
    stage_3_sales_qualified := s3
    stage_4_consultation := s4
    stage_5_deal_closed := s5
    is_converted := s5
    dropout_after_lead := 1 - s2
    dropout_after_contact := if s2 = 1 ∧ s3 = 0 then 1 else 0
    dropout_after_qualification := if s3 = 1 ∧ s4 = 0 then 1 else 0
    dropout_after_consultation := if s4 = 1 ∧ s5 = 0 then 1 else 0 }

/-- The Merger: left join then per-row derivation of the indicator columns
(03_data_merging.py STEPS 3-5). -/
def createMasterDataset (mql : List LeadRow) (deals : List DealRow) :
    List MasterRow :=
  (leftMerge mql deals).map (fun p => makeMasterRow p.1 p.2)

/-- Column sums of the five stage-indicator columns (the funnel validation
counts of 03_data_merging.py lines 230-236). -/
def stageSum1 (m : List MasterRow) : Nat := (m.map (fun r => r.stage_1_lead_generated)).sum

def stageSum2 (m : List MasterRow) : Nat := (m.map (fun r => r.stage_2_first_contact)).sum

def stageSum3 (m : List MasterRow) : Nat := (m.map (fun r => r.stage_3_sales_qualified)).sum

def stageSum4 (m : List MasterRow) : Nat := (m.map (fun r => r.stage_4_consultation)).sum

def stageSum5 (m : List MasterRow) : Nat := (m.map (fun r => r.stage_5_deal_closed)).sum

/-- The logic-error check of the Merger (03_data_merging.py lines 243-257):
a later stage count exceeding an earlier one is collected and reported as a
warning, not silently ignored. -/
def logicErrors (m : List MasterRow) : List String :=
  (if stageSum1 m < stageSum2 m then ["Stage 2 > Stage 1"] else []) ++
  (if stageSum2 m < stageSum3 m then ["Stage 3 > Stage 2"] else []) ++
  (if stageSum3 m < stageSum4 m then ["Stage 4 > Stage 3"] else []) ++
  (if stageSum4 m < stageSum5 m then ["Stage 5 > Stage 4"] else [])

/-- Running the Cleaner and then the Merger, the composition the pipeline
persists between 02_data_cleaning.py and 03_data_merging.py. -/
def pipelineMaster (rawLeads : List LeadRow) (rawDeals : List DealRow) :
    List MasterRow :=
  createMasterDataset (cleanLeads rawLeads) (cleanDeals rawDeals)

/-! ## Feature Engine (04_feature_engineering.py) -/

/-- Order-level row, restricted to the delivery-date columns used by
create_delivery_delay_feature. -/
structure OrderRow where
  order_delivered_customer_date : Option Int
  order_estimated_delivery_date : Option Int
deriving DecidableEq

/-- delivery_delay_days (04_feature_engineering.py lines 42-46): difference
of the delivered and the estimated delivery date in days, missing when
either date is missing, then fillna(0). -/
def deliveryDelayDays (o : OrderRow) : Int :=
  (match o.order_delivered_customer_date, o.order_estimated_delivery_date with
   | some d, some e => some (d - e)
   | _, _ => none).getD 0

/-- is_delayed (04_feature_engineering.py line 49): 1 when the delay is
positive, 0 when on time or early. -/
def isDelayedFlag (o : OrderRow) : Nat :=
  if 0 < deliveryDelayDays o then 1 else 0

/-- categorize_delay (04_feature_engineering.py lines 52-60). -/
def categorizeDelay (days : Int) : String :=
  if days ≤ 0 then "On Time/Early"
  else if days ≤ 7 then "Minor Delay (1-7 days)"
  else if days ≤ 30 then "Major Delay (8-30 days)"
  else "Severe Delay (30+ days)"

/-- delay_category (04_feature_engineering.py line 62). -/
def delayCategory (o : OrderRow) : String :=
  categorizeDelay (deliveryDelayDays o)

/-! ## Funnel Metrics Engine (05_funnel_analysis.py) -/

/-- Row of the engineered order dataset, restricted to the columns
calculate_customer_level_metrics aggregates. The flag columns are the 0/1
indicators produced by 04_feature_engineering.py. -/
structure EngRow where
  order_id : String
  customer_unique_id : String
  is_delayed : Nat
  is_canceled : Nat
  has_negative_review : Nat
  has_negative_experience : Nat
  price : Option ℚ
  customer_state : Option String
  order_purchase_timestamp : Option Int
deriving DecidableEq

/-- One row per unique customer, produced by calculate_customer_level_metrics
(05_funnel_analysis.py lines 24-56). -/
structure CustomerSummary where
  customer_unique_id : String
  total_orders : Nat
  experienced_delay : Nat
  experienced_cancellation : Nat
  gave_negative_review : Nat
  had_negative_experience : Nat
  total_spent : ℚ
  customer_state : Option String
  first_order_date : Option Int
  customer_type : String
deriving DecidableEq

/-- The rows of one customer group (pandas groupby('customer_unique_id'),
order of rows within the group preserved). -/
def groupRows (df : List EngRow) (cid : String) : List EngRow :=
  df.filter (fun r => decide (r.customer_unique_id = cid))

/-- pandas groupby 'max' aggregation on a 0/1 flag column. -/
def aggMax (xs : List Nat) : Nat := xs.foldl max 0

/-- calculate_customer_level_metrics (05_funnel_analysis.py lines 24-56):
group orders by customer; per group take the order_id count, the max of each
negative-experience flag, the price sum, the first non-missing state and the
earliest purchase date; customer_type is 'One-time' for exactly one order,
else 'Repeat'. -/
def calculate_customer_level_metrics (df : List EngRow) : List CustomerSummary :=
  (dropDuplicates (df.map (fun r => r.customer_unique_id))).map (fun cid =>
    let g := groupRows df cid
    let orders := (g.map (fun r => r.order_id)).length
    { customer_unique_id := cid
      total_orders := orders
      experienced_delay := aggMax (g.map (fun r => r.is_delayed))
      experienced_cancellation := aggMax (g.map (fun r => r.is_canceled))
      gave_negative_review := aggMax (g.map (fun r => r.has_negative_review))
      had_negative_experience := aggMax (g.map (fun r => r.has_negative_experience))
      total_spent := (g.filterMap (fun r => r.price)).sum
      customer_state := (g.filterMap (fun r => r.customer_state)).head?
      first_order_date := (g.filterMap (fun r => r.order_purchase_timestamp)).min?
      customer_type := if orders = 1 then "One-time" else "Repeat" })

/-- Result record of calculate_core_funnel_metrics
(05_funnel_analysis.py lines 85-95). -/
structure CoreMetrics where
  acquisition_customers : Nat
  activation_customers : Nat
  retention_customers : Nat
  activation_rate_percent : ℚ
  retention_rate_percent : ℚ
  acquisition_to_activation_dropoff : Nat
  activation_to_retention_dropoff : Nat
  activation_dropoff_rate_percent : ℚ
  retention_dropoff_rate_percent : ℚ
deriving DecidableEq

/-- calculate_core_funnel_metrics (05_funnel_analysis.py lines 58-103):
acquisition is the customer count, activation the count with at least one
order, retention the count with at least two; every rate division is guarded
by an if on a positive denominator, yielding 0 otherwise, and rates are
rounded to two decimals. -/
def calculate_core_funnel_metrics (cs : List CustomerSummary) : CoreMetrics :=
  let acquisition := cs.length
  let activation := (cs.filter (fun r => decide (r.total_orders ≥ 1))).length
  let retention := (cs.filter (fun r => decide (r.total_orders ≥ 2))).length
  let activation_rate : ℚ :=
    if acquisition > 0 then ((activation : ℚ) / (acquisition : ℚ)) * 100 else 0
  let retention_rate : ℚ :=
    if activation > 0 then ((retention : ℚ) / (activation : ℚ)) * 100 else 0
  let a2aDropoff := acquisition - activation
  let a2rDropoff := activation - retention
  let activationDropoffRate : ℚ :=
    if acquisition > 0 then ((a2aDropoff : ℚ) / (acquisition : ℚ)) * 100 else 0
  let retentionDropoffRate : ℚ :=
    if activation > 0 then ((a2rDropoff : ℚ) / (activation : ℚ)) * 100 else 0
  { acquisition_customers := acquisition
    activation_customers := activation
    retention_customers := retention
    activation_rate_percent := round2 activation_rate
    retention_rate_percent := round2 retention_rate
    acquisition_to_activation_dropoff := a2aDropoff
    activation_to_retention_dropoff := a2rDropoff
    activation_dropoff_rate_percent := round2 activationDropoffRate
    retention_dropoff_rate_percent := round2 retentionDropoffRate }

/-- Result record of calculate_retention_impact
(05_funnel_analysis.py lines 167-171). -/
structure RetentionImpact where
  retention_without_negative_percent : ℚ
  retention_with_negative_percent : ℚ
  retention_impact_percent : ℚ
deriving DecidableEq

/-- calculate_retention_impact (05_funnel_analysis.py lines 152-171): the
retention rate of the customers whose negative-signal column is 0 minus the
retention rate of those whose column is 1, each rate guarded to 0 on an
empty group; col stands for the negative_experience_column name passed in. -/
def calculate_retention_impact (cs : List CustomerSummary)
    (col : CustomerSummary → Nat) : RetentionImpact :=
  let no_negative := cs.filter (fun r => decide (col r = 0))
  let retention_no_negative : ℚ :=
    if no_negative.length > 0 then
      (((no_negative.filter (fun r => decide (r.total_orders ≥ 2))).length : ℚ) /
        (no_negative.length : ℚ)) * 100
    else 0
  let with_negative := cs.filter (fun r => decide (col r = 1))
  let retention_with_negative : ℚ :=
    if with_negative.length > 0 then
      (((with_negative.filter (fun r => decide (r.total_orders ≥ 2))).length : ℚ) /
        (with_negative.length : ℚ)) * 100
    else 0
  let impact := retention_no_negative - retention_with_negative
  { retention_without_negative_percent := round2 retention_no_negative
    retention_with_negative_percent := round2 retention_with_negative
    retention_impact_percent := round2 impact }

/-- Modelled from the spec: the retention rate of a customer group, the share
of its customers with at least two orders as a percentage, 0 for an empty
group. Used to compare the code's calculate_retention_impact against the
spec's description of it. -/
def specRetentionRate (group : List CustomerSummary) : ℚ :=
  if group.length > 0 then
    (((group.filter (fun r => decide (r.total_orders ≥ 2))).length : ℚ) /
      (group.length : ℚ)) * 100
  else 0

/-- Python max(a, b, c). -/
def max3 (a b c : ℚ) : ℚ := max a (max b c)

/-- The rule-based biggest-retention-killer pick of generate_metrics_report
(05_funnel_analysis.py line 325): 'Delivery delays' if the delay impact
equals the maximum of the three retention-impact scores, else 'Cancellations'
if the cancellation impact equals that maximum, else 'Negative reviews'. -/
def biggestRetentionKiller (delayImp cancImp revImp : RetentionImpact) : String :=
  let d := delayImp.retention_impact_percent
  let c := cancImp.retention_impact_percent
  let r := revImp.retention_impact_percent
  if d = max3 d c r then "Delivery delays"
  else if c = max3 d c r then "Cancellations"
  else "Negative reviews"

/-! ## Supporting lemmas -/

theorem mem_of_mem_ddAux {α : Type} [DecidableEq α] :
    ∀ (l seen : List α) (a : α), a ∈ ddAux seen l → a ∈ l := by
  intro l
  induction l with
  | nil => intro seen a h; simp [ddAux] at h
  | cons x xs ih =>
    intro seen a h
    simp only [ddAux] at h
    by_cases hx : x ∈ seen
    · simp only [if_pos hx] at h
      exact List.mem_cons_of_mem x (ih seen a h)
    · simp only [if_neg hx, List.mem_cons] at h
      rcases h with h | h
      · exact h ▸ List.mem_cons_self x xs
      · exact List.mem_cons_of_mem x (ih (x :: seen) a h)

theorem mem_of_mem_dropDuplicates {α : Type} [DecidableEq α] {l : List α} {a : α}
    (h : a ∈ dropDuplicates l) : a ∈ l :=
  mem_of_mem_ddAux l [] a h

theorem ddAux_eq_self {α : Type} [DecidableEq α] :
    ∀ (l seen : List α), l.Nodup → (∀ x ∈ l, x ∉ seen) → ddAux seen l = l := by
  intro l
  induction l with
  | nil => intro seen _ _; rfl
  | cons x xs ih =>
    intro seen hnd hdisj
    have hx : x ∉ seen := hdisj x (List.mem_cons_self x xs)
    simp only [ddAux, if_neg hx]
    have hnd2 := (List.nodup_cons.mp hnd).2
    have hxxs := (List.nodup_cons.mp hnd).1
    have hdisj2 : ∀ y ∈ xs, y ∉ x :: seen := by
      intro y hy
      simp only [List.mem_cons]
      rintro (rfl | hmem)
      · exact hxxs hy
      · exact hdisj y (List.mem_cons_of_mem x hy) hmem
    rw [ih (x :: seen) hnd2 hdisj2]

theorem dropDuplicates_eq_self {α : Type} [DecidableEq α] {l : List α}
    (h : l.Nodup) : dropDuplicates l = l :=
  ddAux_eq_self l [] h (by intro x _ hx; simp at hx)

/-- A map that changes no element is the identity. -/
theorem list_map_id_of {α : Type} {f : α → α} :
    ∀ {l : List α}, (∀ x ∈ l, f x = x) → l.map f = l := by
  intro l
  induction l with
  | nil => intro _; rfl
  | cons x xs ih =>
    intro h
    simp only [List.map_cons]
    rw [h x (List.mem_cons_self x xs), ih (fun y hy => h y (List.mem_cons_of_mem x hy))]

theorem median_eq_none_iff (xs : List ℚ) : median xs = none ↔ xs = [] := by
  unfold median
  constructor
  · intro h
    by_cases hl : xs.length = 0
    · exact List.length_eq_zero.mp hl
    · simp [hl] at h
  · intro h; simp [h]

theorem round2_zero : round2 0 = 0 := by norm_num [round2]

/-! ## Claim theorems -/

/-- C9: delivery_delay_days is the delivered date minus the estimated
delivery date in days with a missing difference replaced by 0; is_delayed is
1 exactly when the delay is positive; delay_category follows the thresholds
at most 0 on-time, 1-7 minor, 8-30 major, above 30 severe; in particular
delay 10 is a major delay and delay -2 is on time or early. -/
theorem C9_delivery_delay_features (o : OrderRow) (d e : Int) :
    (o.order_delivered_customer_date = some d →
      o.order_estimated_delivery_date = some e →
      deliveryDelayDays o = d - e) ∧
    (o.order_delivered_customer_date = none ∨
      o.order_estimated_delivery_date = none →
      deliveryDelayDays o = 0) ∧
    (isDelayedFlag o = 1 ↔ 0 < deliveryDelayDays o) ∧
    (∀ days : Int,
      (days ≤ 0 → categorizeDelay days = "On Time/Early") ∧
      (1 ≤ days → days ≤ 7 → categorizeDelay days = "Minor Delay (1-7 days)") ∧
      (8 ≤ days → days ≤ 30 → categorizeDelay days = "Major Delay (8-30 days)") ∧
      (30 < days → categorizeDelay days = "Severe Delay (30+ days)")) ∧
    delayCategory o = categorizeDelay (deliveryDelayDays o) ∧
    categorizeDelay 10 = "Major Delay (8-30 days)" ∧
    categorizeDelay (-2) = "On Time/Early" := by
  refine ⟨?_, ?_, ?_, ?_, rfl, by decide, by decide⟩
  · intro h1 h2
    simp [deliveryDelayDays, h1, h2]
  · intro h
    rcases h with h | h
    · simp [deliveryDelayDays, h]
    · cases hx : o.order_delivered_customer_date <;>
        simp [deliveryDelayDays, h, hx]
  · by_cases h : 0 < deliveryDelayDays o <;> simp [isDelayedFlag, h]
  · intro days
    refine ⟨?_, ?_, ?_, ?_⟩
    · intro h; simp [categorizeDelay, h]
    · intro h1 h2
      unfold categorizeDelay
      rw [if_neg (by omega), if_pos h2]
    · intro h1 h2
      unfold categorizeDelay
      rw [if_neg (by omega), if_neg (by omega), if_pos h2]
    · intro h
      unfold categorizeDelay
      rw [if_neg (by omega), if_neg (by omega), if_neg (by omega)]

/-- C9 witness: a concrete order delivered 12 with estimate 2 gives delay
12 - 2 = 10. -/
theorem C9_witness :
    deliveryDelayDays ⟨some 12, some 2⟩ = 12 - 2 :=
  (C9_delivery_delay_features ⟨some 12, some 2⟩ 12 2).1 rfl rfl

/-- C8: the biggest-retention-killer pick is the argmax of the three
retention-impact scores with ties broken in the order delay, cancellation,
review: when the delay impact attains the maximum the pick is Delivery
delays; otherwise when the cancellation impact attains the maximum the pick
is Cancellations; otherwise it is Negative reviews. -/
theorem C8_biggest_retention_killer (di ci ri : RetentionImpact) :
    ((ci.retention_impact_percent ≤ di.retention_impact_percent ∧
      ri.retention_impact_percent ≤ di.retention_impact_percent) →
      biggestRetentionKiller di ci ri = "Delivery delays") ∧
    (¬(ci.retention_impact_percent ≤ di.retention_impact_percent ∧
        ri.retention_impact_percent ≤ di.retention_impact_percent) →
      (di.retention_impact_percent ≤ ci.retention_impact_percent ∧
        ri.retention_impact_percent ≤ ci.retention_impact_percent) →
      biggestRetentionKiller di ci ri = "Cancellations") ∧
    (¬(ci.retention_impact_percent ≤ di.retention_impact_percent ∧
        ri.retention_impact_percent ≤ di.retention_impact_percent) →
      ¬(di.retention_impact_percent ≤ ci.retention_impact_percent ∧
        ri.retention_impact_percent ≤ ci.retention_impact_percent) →
      biggestRetentionKiller di ci ri = "Negative reviews") := by
  obtain ⟨x1, x2, d⟩ := di
  obtain ⟨y1, y2, c⟩ := ci
  obtain ⟨z1, z2, r⟩ := ri
  simp only [biggestRetentionKiller, max3]
  refine ⟨?_, ?_, ?_⟩
  · rintro ⟨h1, h2⟩
    have hmax : max d (max c r) = d := max_eq_left (max_le h1 h2)
    simp [hmax]
  · intro hnd
    rintro ⟨h1, h2⟩
    have hmax : max d (max c r) = c := by
      rw [max_eq_left h2, max_eq_right h1]
    have hd : ¬ d = c := by
      intro he
      exact hnd ⟨le_of_eq he.symm, le_trans h2 (le_of_eq he.symm)⟩
    simp only [hmax]
    simp [hd]
  · intro hnd hnc
    have hd : ¬ d = max d (max c r) := by
      intro he
      exact hnd ⟨le_trans (le_trans (le_max_left c r) (le_max_right d (max c r)))
        (le_of_eq he.symm),
        le_trans (le_trans (le_max_right c r) (le_max_right d (max c r)))
        (le_of_eq he.symm)⟩
    have hc : ¬ c = max d (max c r) := by
      intro he
      exact hnc ⟨le_trans (le_max_left d (max c r)) (le_of_eq he.symm),
        le_trans (le_trans (le_max_right c r) (le_max_right d (max c r)))
        (le_of_eq he.symm)⟩
    simp [hd, hc]

/-- C8 witness: with impacts 5, 3, 1 the delay impact attains the maximum
and the pick is Delivery delays. -/
theorem C8_witness :
    biggestRetentionKiller ⟨0, 0, 5⟩ ⟨0, 0, 3⟩ ⟨0, 0, 1⟩ = "Delivery delays" :=
  (C8_biggest_retention_killer ⟨0, 0, 5⟩ ⟨0, 0, 3⟩ ⟨0, 0, 1⟩).1
    ⟨by norm_num, by norm_num⟩

/-- C6: every rate with a zero denominator is a defined 0 instead of a
division error: activation_rate and the activation drop-off rate are 0 when
acquisition is 0, retention_rate and the retention drop-off rate are 0 when
activation is 0, and each retention-impact component rate is 0 when its
customer group is empty. -/
theorem C6_zero_denominator_guards (cs : List CustomerSummary)
    (col : CustomerSummary → Nat) :
    ((calculate_core_funnel_metrics cs).acquisition_customers = 0 →
      (calculate_core_funnel_metrics cs).activation_rate_percent = 0 ∧
      (calculate_core_funnel_metrics cs).activation_dropoff_rate_percent = 0) ∧
    ((calculate_core_funnel_metrics cs).activation_customers = 0 →
      (calculate_core_funnel_metrics cs).retention_rate_percent = 0 ∧
      (calculate_core_funnel_metrics cs).retention_dropoff_rate_percent = 0) ∧
    ((cs.filter (fun r => decide (col r = 0))).length = 0 →
      (calculate_retention_impact cs col).retention_without_negative_percent = 0) ∧
    ((cs.filter (fun r => decide (col r = 1))).length = 0 →
      (calculate_retention_impact cs col).retention_with_negative_percent = 0) := by
  refine ⟨?_, ?_, ?_, ?_⟩
  · intro h
    simp only [calculate_core_funnel_metrics] at h ⊢
    rw [h]
    simp [round2_zero]
  · intro h
    simp only [calculate_core_funnel_metrics] at h ⊢
    rw [h]
    simp [round2_zero]
  · intro h
    simp only [calculate_retention_impact]
    rw [h]
    simp [round2_zero]
  · intro h
    simp only [calculate_retention_impact]
    rw [h]
    simp [round2_zero]

/-- C6 witness: on the empty customer summary every guarded rate is 0. -/
theorem C6_witness :
    (calculate_core_funnel_metrics ([] : List CustomerSummary)).activation_rate_percent = 0 ∧
    (calculate_core_funnel_metrics ([] : List CustomerSummary)).activation_dropoff_rate_percent = 0 ∧
    (calculate_core_funnel_metrics ([] : List CustomerSummary)).retention_rate_percent = 0 ∧
    (calculate_retention_impact ([] : List CustomerSummary)
      (fun r => r.experienced_delay)).retention_without_negative_percent = 0 := by
  have h1 := (C6_zero_denominator_guards [] (fun r => r.experienced_delay)).1 rfl
  have h2 := (C6_zero_denominator_guards [] (fun r => r.experienced_delay)).2.1 rfl
  have h3 := (C6_zero_denominator_guards [] (fun r => r.experienced_delay)).2.2.1 rfl
  exact ⟨h1.1, h1.2, h2.1, h3⟩

/-- C4: on a customer summary of exactly three customers with order counts
1, 1 and 3, the core funnel metrics report acquisition 3, activation 3,
retention 1 and retention rate 33.33 percent. -/
theorem C4_core_metrics_concrete :
    (calculate_core_funnel_metrics
      [⟨"a", 1, 0, 0, 0, 0, 0, none, none, "One-time"⟩,
       ⟨"b", 1, 0, 0, 0, 0, 0, none, none, "One-time"⟩,
       ⟨"c", 3, 0, 0, 0, 0, 0, none, none, "Repeat"⟩]).acquisition_customers = 3 ∧
    (calculate_core_funnel_metrics
      [⟨"a", 1, 0, 0, 0, 0, 0, none, none, "One-time"⟩,
       ⟨"b", 1, 0, 0, 0, 0, 0, none, none, "One-time"⟩,
       ⟨"c", 3, 0, 0, 0, 0, 0, none, none, "Repeat"⟩]).activation_customers = 3 ∧
    (calculate_core_funnel_metrics
      [⟨"a", 1, 0, 0, 0, 0, 0, none, none, "One-time"⟩,
       ⟨"b", 1, 0, 0, 0, 0, 0, none, none, "One-time"⟩,
       ⟨"c", 3, 0, 0, 0, 0, 0, none, none, "Repeat"⟩]).retention_customers = 1 ∧
    (calculate_core_funnel_metrics
      [⟨"a", 1, 0, 0, 0, 0, 0, none, none, "One-time"⟩,
       ⟨"b", 1, 0, 0, 0, 0, 0, none, none, "One-time"⟩,
       ⟨"c", 3, 0, 0, 0, 0, 0, none, none, "Repeat"⟩]).retention_rate_percent = 3333/100 := by
  refine ⟨rfl, rfl, rfl, ?_⟩
  norm_num [calculate_core_funnel_metrics, round2, List.filter]

/-- C3: calculate_retention_impact returns, before rounding, the retention
rate among the customers without the negative signal minus the retention
rate among those with it, each rate being the percentage share of customers
with at least two orders (0 on an empty group); the two component rates of
the result are those rates rounded; and on the two concrete customers A
(signal 0, two orders) and B (signal 1, one order) the impact is 100. -/
theorem C3_retention_impact (cs : List CustomerSummary)
    (col : CustomerSummary → Nat) :
    ((calculate_retention_impact cs col).retention_impact_percent =
      round2 (specRetentionRate (cs.filter (fun r => decide (col r = 0))) -
              specRetentionRate (cs.filter (fun r => decide (col r = 1))))) ∧
    ((calculate_retention_impact cs col).retention_without_negative_percent =
      round2 (specRetentionRate (cs.filter (fun r => decide (col r = 0))))) ∧
    ((calculate_retention_impact cs col).retention_with_negative_percent =
      round2 (specRetentionRate (cs.filter (fun r => decide (col r = 1))))) ∧
    (calculate_retention_impact
      [⟨"A", 2, 0, 0, 0, 0, 0, none, none, "Repeat"⟩,
       ⟨"B", 1, 1, 1, 1, 1, 0, none, none, "One-time"⟩]
      (fun r => r.experienced_delay)).retention_impact_percent = 100 := by
  refine ⟨rfl, rfl, rfl, ?_⟩
  norm_num [calculate_retention_impact, round2, List.filter]

/-- C5: in every output of calculate_core_funnel_metrics on a customer
summary built by calculate_customer_level_metrics, the activation count
(customers with at least one order) equals the acquisition count (the number
of customer-summary rows): every grouped customer has at least one order row,
so its order count is at least 1. -/
theorem C5_activation_eq_acquisition (df : List EngRow) :
    (calculate_core_funnel_metrics (calculate_customer_level_metrics df)).activation_customers =
    (calculate_core_funnel_metrics (calculate_customer_level_metrics df)).acquisition_customers := by
  have key : ∀ c ∈ calculate_customer_level_metrics df,
      decide (c.total_orders ≥ 1) = true := by
    intro c hc
    unfold calculate_customer_level_metrics at hc
    obtain ⟨cid, hcid, rfl⟩ := List.mem_map.mp hc
    have hmem : cid ∈ df.map (fun r => r.customer_unique_id) :=
      mem_of_mem_dropDuplicates hcid
    obtain ⟨row, hrow, hid⟩ := List.mem_map.mp hmem
    have hg : row ∈ groupRows df cid := by
      unfold groupRows
      rw [List.mem_filter]
      exact ⟨hrow, by simp [hid]⟩
    have hlen : 0 < (groupRows df cid).length :=
      List.length_pos.mpr (List.ne_nil_of_mem hg)
    simp only [decide_eq_true_eq, ge_iff_le, List.length_map]
    exact hlen
  simp only [calculate_core_funnel_metrics]
  rw [List.filter_eq_self.mpr key]

/-- Every row of the cleaned deals table has its fill-target categorical and
boolean-coded columns present: the 'unknown' and 0 fills run on every row and
no later cleaning step re-empties these columns. -/
theorem cleanDeals_shape (t : List DealRow) :
    ∀ r ∈ cleanDeals t,
      r.business_segment.isSome = true ∧ r.lead_type.isSome = true ∧
      r.lead_behaviour_profile.isSome = true ∧ r.business_type.isSome = true ∧
      r.sdr_id.isSome = true ∧ r.sr_id.isSome = true ∧
      r.has_company.isSome = true ∧ r.has_gtin.isSome = true := by
  intro r hr
  simp only [cleanDeals, clipDeals, astypeBoolDeals, standardizeDeals,
    fillDealsNumerical, fillDealsCategorical, List.map_map, List.mem_map] at hr
  obtain ⟨a, ha, rfl⟩ := hr
  simp [Function.comp, clipRow, astRow, stdRow, fillNumRow, fillCatRow, fillNa]

/-- Every row of the cleaned leads table has origin and landing_page_id
present (the 'unknown' fill runs on every row). -/
theorem cleanLeads_shape (t : List LeadRow) :
    ∀ r ∈ cleanLeads t,
      r.origin.isSome = true ∧ r.landing_page_id.isSome = true := by
  intro r hr
  simp only [cleanLeads, standardizeLeads, fillLeadsCategorical,
    List.map_map, List.mem_map] at hr
  obtain ⟨a, ha, rfl⟩ := hr
  simp [Function.comp, stdLeadRow, fillLeadRow, fillNa]

/-- Decomposition of a master-dataset row: it comes from a lead of the input
and either no deal (no match) or some deal of the input. -/
theorem mem_createMasterDataset (L : List LeadRow) (D : List DealRow)
    (row : MasterRow) (h : row ∈ createMasterDataset L D) :
    ∃ l od, l ∈ L ∧ (od = none ∨ ∃ d, d ∈ D ∧ od = some d) ∧
      row = makeMasterRow l od := by
  unfold createMasterDataset at h
  obtain ⟨⟨l, od⟩, hm, rfl⟩ := List.mem_map.mp h
  unfold leftMerge at hm
  rw [List.mem_flatMap] at hm
  obtain ⟨l0, hl0, hmem⟩ := hm
  dsimp only at hmem
  split at hmem
  · simp only [List.mem_singleton, Prod.mk.injEq] at hmem
    exact ⟨l0, none, hl0, Or.inl rfl, by rw [← hmem.1, ← hmem.2]⟩
  · obtain ⟨d, hd, heq⟩ := List.mem_map.mp hmem
    simp only [Prod.mk.injEq] at heq
    exact ⟨l0, some d, hl0,
      Or.inr ⟨d, (List.mem_filter.mp hd).1, rfl⟩, by rw [← heq.1, ← heq.2]⟩

/-- Stage flags on a row merged from a lead and a matched cleaned deal:
stages 3 and 4 are 1 because the Cleaner filled sdr_id and sr_id, and stage 5
is bounded by 1. -/
theorem pipeline_row_bounds (rawLeads : List LeadRow) (rawDeals : List DealRow) :
    ∀ r ∈ pipelineMaster rawLeads rawDeals,
      r.stage_5_deal_closed ≤ r.stage_4_consultation ∧
      r.stage_4_consultation ≤ r.stage_3_sales_qualified ∧
      r.stage_2_first_contact ≤ r.stage_1_lead_generated := by
  intro r hr
  obtain ⟨l, od, hl, hod, rfl⟩ := mem_createMasterDataset _ _ r hr
  rcases hod with rfl | ⟨d, hd, rfl⟩
  · refine ⟨?_, ?_, ?_⟩ <;> simp only [makeMasterRow, Option.none_bind,
      Option.isSome_none, Bool.false_eq_true, if_false] <;> (try split) <;> simp
  · have h8 := cleanDeals_shape rawDeals d hd
    refine ⟨?_, ?_, ?_⟩ <;> simp only [makeMasterRow, Option.some_bind,
      h8.2.2.2.2.1, h8.2.2.2.2.2.1, if_true] <;> (try split) <;> simp

/-- C10 (implicit): when every deal row has sdr_id and sr_id present — which
the Cleaner's 'unknown' fill establishes, as the first conjunct states —
every merged row has stage_3_sales_qualified equal to stage_4_consultation,
both recording whether the lead matched a deal, and therefore
dropout_after_qualification is 0 on every row. -/
theorem C10_stage3_eq_stage4 (t : List DealRow) (L : List LeadRow)
    (D : List DealRow)
    (hD : ∀ d ∈ D, d.sdr_id.isSome = true ∧ d.sr_id.isSome = true) :
    (∀ d ∈ cleanDeals t, d.sdr_id.isSome = true ∧ d.sr_id.isSome = true) ∧
    (∀ p ∈ leftMerge L D,
      (makeMasterRow p.1 p.2).stage_3_sales_qualified =
        (if p.2.isSome then 1 else 0) ∧
      (makeMasterRow p.1 p.2).stage_4_consultation =
        (if p.2.isSome then 1 else 0)) ∧
    (∀ row ∈ createMasterDataset L D,
      row.stage_3_sales_qualified = row.stage_4_consultation ∧
      row.dropout_after_qualification = 0) := by
  have hpair : ∀ l : LeadRow, ∀ od : Option DealRow,
      (od = none ∨ ∃ d, d ∈ D ∧ od = some d) →
      (makeMasterRow l od).stage_3_sales_qualified = (if od.isSome then 1 else 0) ∧
      (makeMasterRow l od).stage_4_consultation = (if od.isSome then 1 else 0) := by
    intro l od hod
    rcases hod with rfl | ⟨d, hd, rfl⟩
    · simp [makeMasterRow]
    · have h2 := hD d hd
      simp [makeMasterRow, h2.1, h2.2]
  refine ⟨?_, ?_, ?_⟩
  · intro d hd
    have h8 := cleanDeals_shape t d hd
    exact ⟨h8.2.2.2.2.1, h8.2.2.2.2.2.1⟩
  · intro p hp
    unfold leftMerge at hp
    rw [List.mem_flatMap] at hp
    obtain ⟨l0, hl0, hmem⟩ := hp
    dsimp only at hmem
    split at hmem
    · simp only [List.mem_singleton] at hmem
      rw [hmem]
      exact hpair l0 none (Or.inl rfl)
    · obtain ⟨d, hd, heq⟩ := List.mem_map.mp hmem
      rw [← heq]
      exact hpair l0 (some d) (Or.inr ⟨d, (List.mem_filter.mp hd).1, rfl⟩)
  · intro row hrow
    obtain ⟨l, od, hl, hod, rfl⟩ := mem_createMasterDataset _ _ row hrow
    have h34 := hpair l od hod
    refine ⟨h34.1.trans h34.2.symm, ?_⟩
    simp only [makeMasterRow] at h34 ⊢
    rcases hod with rfl | ⟨d, hd, rfl⟩
    · simp
    · have h2 := hD d hd
      simp [h2.1, h2.2]

/-- C10 witness: one lead matching one deal with both rep ids present gives
equal stage 3 and stage 4 flags and dropout_after_qualification 0. -/
theorem C10_witness :
    (makeMasterRow ⟨"a", some 0, some "organic", some "lp"⟩
        (some ⟨"a", none, none, none, none, some "s1", some "s2", none, none,
          none, none, none, none⟩)).stage_3_sales_qualified =
      (if (some (⟨"a", none, none, none, none, some "s1", some "s2", none, none,
        none, none, none, none⟩ : DealRow)).isSome then 1 else 0) ∧
    (makeMasterRow ⟨"a", some 0, some "organic", some "lp"⟩
        (some ⟨"a", none, none, none, none, some "s1", some "s2", none, none,
          none, none, none, none⟩)).stage_4_consultation =
      (if (some (⟨"a", none, none, none, none, some "s1", some "s2", none, none,
        none, none, none, none⟩ : DealRow)).isSome then 1 else 0) :=
  (C10_stage3_eq_stage4 []
    [⟨"a", some 0, some "organic", some "lp"⟩]
    [⟨"a", none, none, none, none, some "s1", some "s2", none, none,
      none, none, none, none⟩]
    (by decide)).2.1
    (⟨"a", some 0, some "organic", some "lp"⟩,
      some ⟨"a", none, none, none, none, some "s1", some "s2", none, none,
        none, none, none, none⟩)
    (by decide)

/-- C1 counterexample: the monotonic funnel invariant fails as a universal
statement about cleaned tables. A lead whose first_contact_date the Cleaner
left missing (unparseable dates are only counted, never filled) but that
matches a deal gets stage_3 = 1 and stage_2 = 0 after the Merger, so the
stage-3 column sum exceeds the stage-2 column sum. -/
theorem C1_counterexample :
    stageSum2 (pipelineMaster [⟨"a", none, none, none⟩]
      [⟨"a", none, none, none, none, none, none, none, none, none, none,
        none, none⟩]) <
    stageSum3 (pipelineMaster [⟨"a", none, none, none⟩]
      [⟨"a", none, none, none, none, none, none, none, none, none, none,
        none, none⟩]) := by
  decide

/-- C1 (amended): for every pair of raw tables run through the Cleaner and
the Merger, the stage-flag column sums satisfy stage5 ≤ stage4 ≤ stage3 and
stage2 ≤ stage1 unconditionally; the remaining link stage3 ≤ stage2 holds
whenever every cleaned lead has a present first-contact date, and any
violation of it is flagged by the Merger's logic-error check rather than
passing silently. -/
theorem C1_stage_monotonicity_amended (rawLeads : List LeadRow)
    (rawDeals : List DealRow) :
    stageSum5 (pipelineMaster rawLeads rawDeals) ≤
      stageSum4 (pipelineMaster rawLeads rawDeals) ∧
    stageSum4 (pipelineMaster rawLeads rawDeals) ≤
      stageSum3 (pipelineMaster rawLeads rawDeals) ∧
    stageSum2 (pipelineMaster rawLeads rawDeals) ≤
      stageSum1 (pipelineMaster rawLeads rawDeals) ∧
    ((∀ l ∈ cleanLeads rawLeads, l.first_contact_date.isSome = true) →
      stageSum3 (pipelineMaster rawLeads rawDeals) ≤
        stageSum2 (pipelineMaster rawLeads rawDeals)) ∧
    (stageSum2 (pipelineMaster rawLeads rawDeals) <
        stageSum3 (pipelineMaster rawLeads rawDeals) →
      "Stage 3 > Stage 2" ∈ logicErrors (pipelineMaster rawLeads rawDeals)) := by
  refine ⟨?_, ?_, ?_, ?_, ?_⟩
  · unfold stageSum5 stageSum4
    exact List.sum_le_sum (fun r hr => (pipeline_row_bounds rawLeads rawDeals r hr).1)
  · unfold stageSum4 stageSum3
    exact List.sum_le_sum (fun r hr => (pipeline_row_bounds rawLeads rawDeals r hr).2.1)
  · unfold stageSum2 stageSum1
    exact List.sum_le_sum (fun r hr => (pipeline_row_bounds rawLeads rawDeals r hr).2.2)
  · intro hfc
    unfold stageSum3 stageSum2
    apply List.sum_le_sum
    intro r hr
    obtain ⟨l, od, hl, hod, rfl⟩ := mem_createMasterDataset _ _ r hr
    have h2 : (makeMasterRow l od).stage_2_first_contact = 1 := by
      simp [makeMasterRow, hfc l hl]
    rw [h2]
    simp only [makeMasterRow]
    split <;> simp
  · intro h
    unfold logicErrors
    rw [if_pos h]
    simp [List.mem_append]

/-- C1 witness: one lead with a present first-contact date and no deals
satisfies the conditional stage3-to-stage2 link of the amended claim. -/
theorem C1_witness :
    stageSum3 (pipelineMaster [⟨"b", some 5, none, none⟩] []) ≤
    stageSum2 (pipelineMaster [⟨"b", some 5, none, none⟩] []) :=
  (C1_stage_monotonicity_amended [⟨"b", some 5, none, none⟩] []).2.2.2.1
    (by decide)

/-- C2 counterexample: a lead with no matching deal does not yield stage
flags (1,0,0,0,0) in general: with its first-contact date present the flags
are (1,1,0,0,0), since stage 2 is a presence check on the lead's own
first_contact_date, not on the deal match. -/
theorem C2_counterexample :
    (createMasterDataset [⟨"a", some 0, some "organic_search", some "lp1"⟩]
        []).map
      (fun r => (r.stage_1_lead_generated, r.stage_2_first_contact,
        r.stage_3_sales_qualified, r.stage_4_consultation,
        r.stage_5_deal_closed, r.is_converted)) =
    [(1, 1, 0, 0, 0, 0)] := by
  decide

/-- C2 (amended): a lead with no matching deal yields stage_3 = stage_4 =
stage_5 = 0 and is_converted = 0, with stage_1 = 1 and stage_2 equal to the
presence of the lead's own first-contact date — so exactly (1,0,0,0,0) when
that date is missing; such an unmatched lead appears in the Merger output;
and a row with all four flag-source fields present yields (1,1,1,1,1) with
is_converted = 1. -/
theorem C2_unmatched_flags_amended (L : List LeadRow) (D : List DealRow)
    (l : LeadRow) (d : DealRow) :
    ((makeMasterRow l none).stage_1_lead_generated = 1 ∧
     (makeMasterRow l none).stage_2_first_contact =
       (if l.first_contact_date.isSome then 1 else 0) ∧
     (makeMasterRow l none).stage_3_sales_qualified = 0 ∧
     (makeMasterRow l none).stage_4_consultation = 0 ∧
     (makeMasterRow l none).stage_5_deal_closed = 0 ∧
     (makeMasterRow l none).is_converted = 0) ∧
    (l ∈ L → (∀ d2 ∈ D, ¬ d2.mql_id = l.mql_id) →
      makeMasterRow l none ∈ createMasterDataset L D) ∧
    (l.first_contact_date = none →
      (makeMasterRow l none).stage_2_first_contact = 0) ∧
    (l.first_contact_date.isSome = true → d.sdr_id.isSome = true →
      d.sr_id.isSome = true → d.won_date.isSome = true →
      (makeMasterRow l (some d)).stage_1_lead_generated = 1 ∧
      (makeMasterRow l (some d)).stage_2_first_contact = 1 ∧
      (makeMasterRow l (some d)).stage_3_sales_qualified = 1 ∧
      (makeMasterRow l (some d)).stage_4_consultation = 1 ∧
      (makeMasterRow l (some d)).stage_5_deal_closed = 1 ∧
      (makeMasterRow l (some d)).is_converted = 1) := by
  refine ⟨?_, ?_, ?_, ?_⟩
  · refine ⟨rfl, rfl, ?_, ?_, ?_, ?_⟩ <;> simp [makeMasterRow]
  · intro hl hnm
    unfold createMasterDataset
    rw [List.mem_map]
    refine ⟨(l, none), ?_, rfl⟩
    unfold leftMerge
    rw [List.mem_flatMap]
    refine ⟨l, hl, ?_⟩
    dsimp only
    have hfil : D.filter (fun d2 => decide (d2.mql_id = l.mql_id)) = [] := by
      apply List.filter_eq_nil_iff.mpr
      intro a ha
      simp [hnm a ha]
    simp [hfil]
  · intro h
    simp [makeMasterRow, h]
  · intro h1 h2 h3 h4
    refine ⟨rfl, ?_, ?_, ?_, ?_, ?_⟩ <;>
      simp [makeMasterRow, h1, h2, h3, h4]

/-- C2 witness: a lead with a missing first-contact date and no deal gets
stage_2 = 0; a fully-completed merged row closes at stage 5; an unmatched
lead is present in the Merger output. -/
theorem C2_witness :
    (makeMasterRow ⟨"a", none, none, none⟩ none).stage_2_first_contact = 0 ∧
    (makeMasterRow ⟨"b", some 3, none, none⟩
        (some ⟨"b", none, none, none, none, some "s1", some "s2", none, none,
          none, none, none, some 9⟩)).is_converted = 1 ∧
    makeMasterRow ⟨"a", none, none, none⟩ none ∈
      createMasterDataset [⟨"a", none, none, none⟩] [] := by
  refine ⟨?_, ?_, ?_⟩
  · exact (C2_unmatched_flags_amended [] [] ⟨"a", none, none, none⟩
      ⟨"x", none, none, none, none, none, none, none, none, none, none,
        none, none⟩).2.2.1 rfl
  · exact ((C2_unmatched_flags_amended [] [] ⟨"b", some 3, none, none⟩
      ⟨"b", none, none, none, none, some "s1", some "s2", none, none,
        none, none, none, some 9⟩).2.2.2 rfl rfl rfl rfl).2.2.2.2.2
  · exact (C2_unmatched_flags_amended [⟨"a", none, none, none⟩] []
      ⟨"a", none, none, none⟩
      ⟨"x", none, none, none, none, none, none, none, none, none, none,
        none, none⟩).2.1 (by decide) (by decide)

/-- The categorical fill changes nothing on a row whose fill-target columns
are all present. -/
theorem fillCatRow_eq_self {r : DealRow}
    (h1 : r.business_segment.isSome = true) (h2 : r.lead_type.isSome = true)
    (h3 : r.lead_behaviour_profile.isSome = true)
    (h4 : r.business_type.isSome = true) (h5 : r.sdr_id.isSome = true)
    (h6 : r.sr_id.isSome = true) : fillCatRow r = r := by
  have e1 : fillNa "unknown" r.business_segment = r.business_segment := by
    obtain ⟨v, hv⟩ := Option.isSome_iff_exists.mp h1
    rw [hv]; rfl
  have e2 : fillNa "unknown" r.lead_type = r.lead_type := by
    obtain ⟨v, hv⟩ := Option.isSome_iff_exists.mp h2
    rw [hv]; rfl
  have e3 : fillNa "unknown" r.lead_behaviour_profile = r.lead_behaviour_profile := by
    obtain ⟨v, hv⟩ := Option.isSome_iff_exists.mp h3
    rw [hv]; rfl
  have e4 : fillNa "unknown" r.business_type = r.business_type := by
    obtain ⟨v, hv⟩ := Option.isSome_iff_exists.mp h4
    rw [hv]; rfl
  have e5 : fillNa "unknown" r.sdr_id = r.sdr_id := by
    obtain ⟨v, hv⟩ := Option.isSome_iff_exists.mp h5
    rw [hv]; rfl
  have e6 : fillNa "unknown" r.sr_id = r.sr_id := by
    obtain ⟨v, hv⟩ := Option.isSome_iff_exists.mp h6
    rw [hv]; rfl
  unfold fillCatRow
  rw [e1, e2, e3, e4, e5, e6]

/-- The numerical fill changes nothing on a row whose boolean-coded columns
are present and whose median-filled columns are each either present or
missing together with an undefined column median. -/
theorem fillNumRow_eq_self {ms mc mr : Option ℚ} {r : DealRow}
    (hc : r.has_company.isSome = true) (hg : r.has_gtin.isSome = true)
    (hs : r.average_stock.isSome = true ∨ (ms = none ∧ r.average_stock = none))
    (hcat : r.declared_product_catalog_size.isSome = true ∨
      (mc = none ∧ r.declared_product_catalog_size = none))
    (hrev : r.declared_monthly_revenue.isSome = true ∨
      (mr = none ∧ r.declared_monthly_revenue = none)) :
    fillNumRow ms mc mr r = r := by
  have e1 : fillNa (0 : ℚ) r.has_company = r.has_company := by
    obtain ⟨v, hv⟩ := Option.isSome_iff_exists.mp hc
    rw [hv]; rfl
  have e2 : fillNa (0 : ℚ) r.has_gtin = r.has_gtin := by
    obtain ⟨v, hv⟩ := Option.isSome_iff_exists.mp hg
    rw [hv]; rfl
  have e3 : fillNaOpt ms r.average_stock = r.average_stock := by
    rcases hs with h | ⟨hm, hn⟩
    · obtain ⟨v, hv⟩ := Option.isSome_iff_exists.mp h
      rw [hv]; rfl
    · rw [hn, hm]; rfl
  have e4 : fillNaOpt mc r.declared_product_catalog_size =
      r.declared_product_catalog_size := by
    rcases hcat with h | ⟨hm, hn⟩
    · obtain ⟨v, hv⟩ := Option.isSome_iff_exists.mp h
      rw [hv]; rfl
    · rw [hn, hm]; rfl
  have e5 : fillNaOpt mr r.declared_monthly_revenue =
      r.declared_monthly_revenue := by
    rcases hrev with h | ⟨hm, hn⟩
    · obtain ⟨v, hv⟩ := Option.isSome_iff_exists.mp h
      rw [hv]; rfl
    · rw [hn, hm]; rfl
  unfold fillNumRow
  rw [e1, e2, e3, e4, e5]

/-- The lead categorical fill changes nothing on a row whose fill-target
columns are present. -/
theorem fillLeadRow_eq_self {r : LeadRow}
    (h1 : r.origin.isSome = true) (h2 : r.landing_page_id.isSome = true) :
    fillLeadRow r = r := by
  have e1 : fillNa "unknown" r.origin = r.origin := by
    obtain ⟨v, hv⟩ := Option.isSome_iff_exists.mp h1
    rw [hv]; rfl
  have e2 : fillNa "unknown" r.landing_page_id = r.landing_page_id := by
    obtain ⟨v, hv⟩ := Option.isSome_iff_exists.mp h2
    rw [hv]; rfl
  unfold fillLeadRow
  rw [e1, e2]

/-- A cleaned deal row decomposes as the post-fill per-row transformations
applied to a row of the filled table. -/
theorem mem_cleanDeals_decomp (t : List DealRow) (r : DealRow)
    (h : r ∈ cleanDeals t) :
    ∃ a ∈ fillDealsNumerical (fillDealsCategorical (dropDuplicates t)),
      r = clipRow (astRow (stdRow a)) := by
  simp only [cleanDeals, clipDeals, astypeBoolDeals, standardizeDeals,
    List.map_map, List.mem_map] at h
  obtain ⟨a, ha, rfl⟩ := h
  exact ⟨a, ha, rfl⟩

/-- After the numerical fill, the average_stock column is either present on
every row (the median existed) or missing on every row (the column was all
missing, its median undefined, and fillna changed nothing). -/
theorem fillDealsNumerical_stock_cases (l : List DealRow) :
    (∀ r ∈ fillDealsNumerical l, r.average_stock.isSome = true) ∨
    (∀ r ∈ fillDealsNumerical l, r.average_stock = none) := by
  cases hm : median (l.filterMap (fun r => r.average_stock)) with
  | some v =>
    left
    intro r hr
    simp only [fillDealsNumerical, List.mem_map] at hr
    obtain ⟨a, ha, rfl⟩ := hr
    simp only [fillNumRow, hm]
    cases a.average_stock <;> simp [fillNaOpt]
  | none =>
    right
    intro r hr
    have hall : ∀ b ∈ l, b.average_stock = none :=
      List.filterMap_eq_nil_iff.mp ((median_eq_none_iff _).mp hm)
    simp only [fillDealsNumerical, List.mem_map] at hr
    obtain ⟨a, ha, rfl⟩ := hr
    simp only [fillNumRow, hm, hall a ha]
    rfl

/-- Same dichotomy for declared_product_catalog_size. -/
theorem fillDealsNumerical_catalog_cases (l : List DealRow) :
    (∀ r ∈ fillDealsNumerical l,
      r.declared_product_catalog_size.isSome = true) ∨
    (∀ r ∈ fillDealsNumerical l, r.declared_product_catalog_size = none) := by
  cases hm : median (l.filterMap (fun r => r.declared_product_catalog_size)) with
  | some v =>
    left
    intro r hr
    simp only [fillDealsNumerical, List.mem_map] at hr
    obtain ⟨a, ha, rfl⟩ := hr
    simp only [fillNumRow, hm]
    cases a.declared_product_catalog_size <;> simp [fillNaOpt]
  | none =>
    right
    intro r hr
    have hall : ∀ b ∈ l, b.declared_product_catalog_size = none :=
      List.filterMap_eq_nil_iff.mp ((median_eq_none_iff _).mp hm)
    simp only [fillDealsNumerical, List.mem_map] at hr
    obtain ⟨a, ha, rfl⟩ := hr
    simp only [fillNumRow, hm, hall a ha]
    rfl

/-- Same dichotomy for declared_monthly_revenue. -/
theorem fillDealsNumerical_revenue_cases (l : List DealRow) :
    (∀ r ∈ fillDealsNumerical l, r.declared_monthly_revenue.isSome = true) ∨
    (∀ r ∈ fillDealsNumerical l, r.declared_monthly_revenue = none) := by
  cases hm : median (l.filterMap (fun r => r.declared_monthly_revenue)) with
  | some v =>
    left
    intro r hr
    simp only [fillDealsNumerical, List.mem_map] at hr
    obtain ⟨a, ha, rfl⟩ := hr
    simp only [fillNumRow, hm]
    cases a.declared_monthly_revenue <;> simp [fillNaOpt]
  | none =>
    right
    intro r hr
    have hall : ∀ b ∈ l, b.declared_monthly_revenue = none :=
      List.filterMap_eq_nil_iff.mp ((median_eq_none_iff _).mp hm)
    simp only [fillDealsNumerical, List.mem_map] at hr
    obtain ⟨a, ha, rfl⟩ := hr
    simp only [fillNumRow, hm, hall a ha]
    rfl

/-- The stock dichotomy carried through to the full cleaned table. -/
theorem cleanDeals_stock_cases (t : List DealRow) :
    (∀ r ∈ cleanDeals t, r.average_stock.isSome = true) ∨
    (∀ r ∈ cleanDeals t, r.average_stock = none) := by
  rcases fillDealsNumerical_stock_cases (fillDealsCategorical (dropDuplicates t))
    with h | h
  · left
    intro r hr
    obtain ⟨a, ha, rfl⟩ := mem_cleanDeals_decomp t r hr
    obtain ⟨v, hv⟩ := Option.isSome_iff_exists.mp (h a ha)
    simp [clipRow, astRow, stdRow, hv]
  · right
    intro r hr
    obtain ⟨a, ha, rfl⟩ := mem_cleanDeals_decomp t r hr
    simp [clipRow, astRow, stdRow, h a ha]

/-- The catalog-size dichotomy carried through to the full cleaned table. -/
theorem cleanDeals_catalog_cases (t : List DealRow) :
    (∀ r ∈ cleanDeals t, r.declared_product_catalog_size.isSome = true) ∨
    (∀ r ∈ cleanDeals t, r.declared_product_catalog_size = none) := by
  rcases fillDealsNumerical_catalog_cases (fillDealsCategorical (dropDuplicates t))
    with h | h
  · left
    intro r hr
    obtain ⟨a, ha, rfl⟩ := mem_cleanDeals_decomp t r hr
    obtain ⟨v, hv⟩ := Option.isSome_iff_exists.mp (h a ha)
    simp [clipRow, astRow, stdRow, hv]
  · right
    intro r hr
    obtain ⟨a, ha, rfl⟩ := mem_cleanDeals_decomp t r hr
    simp [clipRow, astRow, stdRow, h a ha]

/-- The revenue dichotomy carried through to the full cleaned table. -/
theorem cleanDeals_revenue_cases (t : List DealRow) :
    (∀ r ∈ cleanDeals t, r.declared_monthly_revenue.isSome = true) ∨
    (∀ r ∈ cleanDeals t, r.declared_monthly_revenue = none) := by
  rcases fillDealsNumerical_revenue_cases (fillDealsCategorical (dropDuplicates t))
    with h | h
  · left
    intro r hr
    obtain ⟨a, ha, rfl⟩ := mem_cleanDeals_decomp t r hr
    obtain ⟨v, hv⟩ := Option.isSome_iff_exists.mp (h a ha)
    simp [clipRow, astRow, stdRow, hv]
  · right
    intro r hr
    obtain ⟨a, ha, rfl⟩ := mem_cleanDeals_decomp t r hr
    simp [clipRow, astRow, stdRow, h a ha]

/-- C7 counterexample: the Cleaner is not a fixed point of its own output.
Two distinct raw deal rows — one with sdr_id missing, one with sdr_id
'unknown' — survive the first run's duplicate removal (which runs before the
fills), are then made identical by the 'unknown' fill, and the second run
removes one of them. -/
theorem C7_counterexample :
    (cleanDeals [⟨"m", none, none, none, none, none, none, none, none, none,
        none, none, none⟩,
      ⟨"m", none, none, none, none, some "unknown", none, none, none, none,
        none, none, none⟩]).length = 2 ∧
    (cleanDeals (cleanDeals [⟨"m", none, none, none, none, none, none, none,
        none, none, none, none, none⟩,
      ⟨"m", none, none, none, none, some "unknown", none, none, none, none,
        none, none, none⟩])).length = 1 := by
  decide

/-- C7 (amended): re-running the Cleaner on its own output performs no
additional fills — the fill phase of the second run is the identity on the
re-deduplicated tables — but it can remove further duplicate rows, because
the fills and the case normalization may make originally distinct rows
equal; the second run removes no duplicates exactly on inputs whose cleaned
output is already duplicate-free. -/
theorem C7_cleaner_second_run_amended (dt : List DealRow) (lt : List LeadRow) :
    (fillDealsNumerical (fillDealsCategorical (dropDuplicates (cleanDeals dt))) =
      dropDuplicates (cleanDeals dt)) ∧
    (fillLeadsCategorical (dropDuplicates (cleanLeads lt)) =
      dropDuplicates (cleanLeads lt)) ∧
    ((cleanDeals dt).Nodup → dropDuplicates (cleanDeals dt) = cleanDeals dt) ∧
    ((cleanLeads lt).Nodup → dropDuplicates (cleanLeads lt) = cleanLeads lt) := by
  have hcat : fillDealsCategorical (dropDuplicates (cleanDeals dt)) =
      dropDuplicates (cleanDeals dt) := by
    unfold fillDealsCategorical
    apply list_map_id_of
    intro r hr
    have h8 := cleanDeals_shape dt r (mem_of_mem_dropDuplicates hr)
    exact fillCatRow_eq_self h8.1 h8.2.1 h8.2.2.1 h8.2.2.2.1 h8.2.2.2.2.1
      h8.2.2.2.2.2.1
  refine ⟨?_, ?_, fun h => dropDuplicates_eq_self h,
    fun h => dropDuplicates_eq_self h⟩
  · rw [hcat]
    simp only [fillDealsNumerical]
    apply list_map_id_of
    intro r hr
    have hr2 := mem_of_mem_dropDuplicates hr
    have h8 := cleanDeals_shape dt r hr2
    apply fillNumRow_eq_self h8.2.2.2.2.2.2.1 h8.2.2.2.2.2.2.2
    · rcases cleanDeals_stock_cases dt with hall | hnone
      · exact Or.inl (hall r hr2)
      · refine Or.inr ⟨?_, hnone r hr2⟩
        apply (median_eq_none_iff _).mpr
        apply List.filterMap_eq_nil_iff.mpr
        intro b hb
        exact hnone b (mem_of_mem_dropDuplicates hb)
    · rcases cleanDeals_catalog_cases dt with hall | hnone
      · exact Or.inl (hall r hr2)
      · refine Or.inr ⟨?_, hnone r hr2⟩
        apply (median_eq_none_iff _).mpr
        apply List.filterMap_eq_nil_iff.mpr
        intro b hb
        exact hnone b (mem_of_mem_dropDuplicates hb)
    · rcases cleanDeals_revenue_cases dt with hall | hnone
      · exact Or.inl (hall r hr2)
      · refine Or.inr ⟨?_, hnone r hr2⟩
        apply (median_eq_none_iff _).mpr
        apply List.filterMap_eq_nil_iff.mpr
        intro b hb
        exact hnone b (mem_of_mem_dropDuplicates hb)
  · unfold fillLeadsCategorical
    apply list_map_id_of
    intro r hr
    have h2 := cleanLeads_shape lt r (mem_of_mem_dropDuplicates hr)
    exact fillLeadRow_eq_self h2.1 h2.2

/-- C7 witness: on the empty tables the cleaned output is duplicate-free and
the second run's duplicate removal changes nothing. -/
theorem C7_witness :
    dropDuplicates (cleanDeals ([] : List DealRow)) =
      cleanDeals ([] : List DealRow) ∧
    dropDuplicates (cleanLeads ([] : List LeadRow)) =
      cleanLeads ([] : List LeadRow) :=
  ⟨(C7_cleaner_second_run_amended [] []).2.2.1 (by decide),
   (C7_cleaner_second_run_amended [] []).2.2.2 (by decide)⟩

end MarketingFunnel
